import Mathlib

set_option maxRecDepth 4000

/-!
Verification of the secure credential/session subsystem of
`librelink-mcp-server` (a LibreLink MCP server written in TypeScript).

The development shallowly embeds `src/secure-storage.ts` (SecureStorage:
master-key handling, AES-256-GCM encryption engine, credential/token
vaults, legacy migration) and `dist/librelink-client.js` (LibreLinkClient:
session restoration, login, the 401 clear-and-retry logic on data calls).

External Node.js primitives (node:crypto, Buffer base64/hex codecs,
JSON.stringify/parse of the fixed record shapes, keytar, axios) are not
code of this repository; they are modelled as parameters bundled in
`JsPrims`, and the properties the repository relies on (e.g. AES-GCM
decrypt inverts encrypt under the same key, base64 decode inverts encode)
appear as explicit hypotheses of the theorems that need them.  Randomness
(`randomBytes`) is modelled by an explicit entropy trace carried in the
storage state; wall-clock time (`Date.now()`) is an explicit parameter.
-/

namespace LibreLink

/-- A byte, as produced by Node `Buffer`s. -/
abbrev Byte := Fin 256

/-- Byte strings (Node `Buffer` contents). -/
abbrev Bytes := List Byte

/-- `interface SecureCredentials` from secure-storage.ts. -/
structure SecureCredentials where
  email : String
  password : String
deriving DecidableEq, Repr

/-- `interface StoredTokenData` from secure-storage.ts.
`expires` is a timestamp in milliseconds. -/
structure StoredTokenData where
  token : String
  expires : Int
  userId : String
  accountId : String
  region : String
deriving DecidableEq, Repr

/-- `interface EncryptedData` from secure-storage.ts: all four fields are
base64-encoded strings. -/
structure EncryptedData where
  encrypted : String
  iv : String
  authTag : String
  salt : String
deriving DecidableEq, Repr

/-- Encryption constants from secure-storage.ts. -/
def IV_LENGTH : Nat := 16
def SALT_LENGTH : Nat := 32
def KEY_LENGTH : Nat := 32

/-- The 5-minute validity buffer (`300000` ms), inlined in the source in
`SecureStorage.getToken` and `LibreLinkClient.isTokenValid`. -/
def EXPIRY_BUFFER : Int := 300000

/-- Contents of an on-disk file slot as seen through a JSON parse:
missing, present but unparseable, or parsed to a value of `α`. -/
inductive FileState (α : Type) where
  | absent
  | corrupt
  | contains (a : α)
deriving DecidableEq, Repr

/-- JS truthiness of a nullable string (`null`/`undefined` and `""` are
falsy). -/
def truthyS : Option String → Bool
  | some s => !s.isEmpty
  | none => false

/-- JS truthiness of a nullable number (`null`/`undefined` and `0` are
falsy; `NaN` is out of scope of the integer model). -/
def truthyI : Option Int → Bool
  | some n => n != 0
  | none => false

/-- JS `a || b` on nullable strings. -/
def jsOrS (a b : Option String) : Option String :=
  if truthyS a then a else b

/-- JS `a || b` on nullable numbers. -/
def jsOrI (a b : Option Int) : Option Int :=
  if truthyI a then a else b

/-- External Node.js / JS-runtime primitives used by the subsystem.
Code of node:crypto, Buffer, JSON and keytar is not part of this
repository, so these are parameters of the embedding. -/
structure JsPrims where
  /-- `scryptSync masterKey salt keylen` (node:crypto). -/
  scrypt : Bytes → Bytes → Nat → Bytes
  /-- AES-256-GCM encryption: given derived key, iv and the utf8
  plaintext, returns the base64 ciphertext (as produced by
  `cipher.update(data,'utf8','base64') + cipher.final('base64')`) and the
  raw auth-tag bytes (`cipher.getAuthTag()`). -/
  gcmEnc : Bytes → Bytes → String → String × Bytes
  /-- AES-256-GCM decryption: given derived key, iv, auth tag and the
  base64 ciphertext, returns the utf8 plaintext, or `none` when
  `decipher.final` throws (authentication failure / corrupt input). -/
  gcmDec : Bytes → Bytes → Bytes → String → Option String
  /-- `buf.toString('base64')`. -/
  b64 : Bytes → String
  /-- `Buffer.from(s, 'base64')` (total: Node decodes best-effort). -/
  b64dec : String → Bytes
  /-- `buf.toString('hex')`. -/
  hexEnc : Bytes → String
  /-- `Buffer.from(s, 'hex')`. -/
  hexDec : String → Bytes
  /-- `JSON.stringify` of a `SecureCredentials` object. -/
  serCreds : SecureCredentials → String
  /-- `JSON.parse` of a string expected to hold credentials (`none`
  models a parse failure). -/
  parseCreds : String → Option SecureCredentials
  /-- `JSON.stringify` of a `StoredTokenData` object. -/
  serToken : StoredTokenData → String
  /-- `JSON.parse` of a string expected to hold token data. -/
  parseToken : String → Option StoredTokenData
  /-- `createHash('sha256').update(userId).digest('hex')`
  (dist/librelink-client.js `generateAccountId`). -/
  sha256hex : String → String

/-- Nested `credentials` object a legacy config file may contain. -/
structure LegacyCreds where
  email : Option String
  password : Option String
deriving DecidableEq, Repr

/-- Nested `ranges` object a legacy config file may contain. -/
structure LegacyRanges where
  target_low : Option Int
  target_high : Option Int
deriving DecidableEq, Repr

/-- The fields of a parsed legacy `config.json` that
`SecureStorage.migrateFromLegacy` reads or rewrites. -/
structure LegacyData where
  email : Option String
  password : Option String
  credentials : Option LegacyCreds
  region : Option String
  targetLow : Option Int
  targetHigh : Option Int
  clientVersion : Option String
  ranges : Option LegacyRanges
deriving DecidableEq, Repr

/-- Whether the individual keytar calls made by SecureStorage throw on
this run (each call site catches or propagates as the source does). -/
structure KeychainFaults where
  /-- `keytar.getPassword(SERVICE_NAME, ENCRYPTION_KEY_ACCOUNT)` throws. -/
  readFails : Bool
  /-- `keytar.setPassword(SERVICE_NAME, ENCRYPTION_KEY_ACCOUNT, …)` throws. -/
  writeFails : Bool
  /-- `keytar.setPassword(SERVICE_NAME, AUTH_TOKEN_ACCOUNT, …)` throws. -/
  authWriteFails : Bool
  /-- `keytar.deletePassword(SERVICE_NAME, AUTH_TOKEN_ACCOUNT)` throws. -/
  authDeleteFails : Bool
deriving DecidableEq, Repr

/-- The mutable world a `SecureStorage` instance acts on: its in-memory
key cache, the two encrypted files, the legacy config file, the two
keytar slots, and the entropy trace feeding `randomBytes`. -/
structure Storage where
  /-- `this.encryptionKey` (in-memory cache). -/
  encryptionKey : Option Bytes
  /-- Contents of `credentials.enc` as seen by `loadEncryptedFile`. -/
  credFile : FileState EncryptedData
  /-- Contents of `token.enc` as seen by `loadEncryptedFile`. -/
  tokenFile : FileState EncryptedData
  /-- Contents of the legacy `config.json` as seen by `JSON.parse`. -/
  legacyFile : FileState LegacyData
  /-- keytar slot `ENCRYPTION_KEY_ACCOUNT` (a hex string, or absent). -/
  keychainKey : Option String
  /-- keytar slot `AUTH_TOKEN_ACCOUNT`. -/
  keychainAuth : Option String
  /-- Pre-drawn entropy: each `randomBytes` call consumes one entry. -/
  rand : List Bytes
deriving DecidableEq, Repr

/-- Fit an entropy entry to the requested length (node's `randomBytes n`
always returns exactly `n` bytes). -/
def fitLen (n : Nat) (e : Bytes) : Bytes :=
  e.take n ++ List.replicate (n - e.length) (0 : Byte)

/-- `randomBytes n`: consume one entry of the entropy trace. -/
def randomBytes (n : Nat) (s : Storage) : Bytes × Storage :=
  match s.rand with
  | [] => (List.replicate n (0 : Byte), s)
  | e :: rest => (fitLen n e, { s with rand := rest })

/-- `SecureStorage.getEncryptionKey`: return the cached key if present;
otherwise try to read the keychain (a read failure is caught and treated
like an absent key), and if no key is found generate a fresh random one,
write it to the keychain (a write failure is fatal, with the exact error
message of the source), cache it and return it. -/
def getEncryptionKey (kc : KeychainFaults) (s : Storage) (P : JsPrims) :
    Except String Bytes × Storage :=
  match s.encryptionKey with
  | some k => (.ok k, s)
  | none =>
    -- `try { const existingKey = await keytar.getPassword(...) ... } catch`
    let existing : Option String := if kc.readFails then none else s.keychainKey
    match existing with
    | some hex =>
      if hex.isEmpty then
        -- `if (existingKey)`: the empty string is falsy, fall through
        generateNewKey kc s P
      else
        let k := P.hexDec hex
        (.ok k, { s with encryptionKey := some k })
    | none => generateNewKey kc s P
where
  /-- The generate-and-persist tail of `getEncryptionKey`. -/
  generateNewKey (kc : KeychainFaults) (s : Storage) (P : JsPrims) :
      Except String Bytes × Storage :=
    let r := randomBytes KEY_LENGTH s
    let newKey := r.1
    if kc.writeFails then
      (.error ("Failed to store encryption key in system keychain. " ++
        "Please ensure your system supports secure credential storage."), r.2)
    else
      (.ok newKey, { r.2 with
        keychainKey := some (P.hexEnc newKey), encryptionKey := some newKey })

/-- `SecureStorage.deriveKey`: `scryptSync(masterKey, salt, KEY_LENGTH)`. -/
def deriveKey (P : JsPrims) (masterKey salt : Bytes) : Bytes :=
  P.scrypt masterKey salt KEY_LENGTH

/-- `SecureStorage.encrypt`: fetch the master key, draw a fresh random
salt, derive the per-record key, draw a fresh random iv, AES-256-GCM
encrypt, and package the four base64 fields. -/
def encrypt (kc : KeychainFaults) (data : String) (s : Storage) (P : JsPrims) :
    Except String EncryptedData × Storage :=
  match getEncryptionKey kc s P with
  | (.error e, s1) => (.error e, s1)
  | (.ok masterKey, s1) =>
    let r1 := randomBytes SALT_LENGTH s1
    let salt := r1.1
    let derivedKey := deriveKey P masterKey salt
    let r2 := randomBytes IV_LENGTH r1.2
    let iv := r2.1
    let ct := P.gcmEnc derivedKey iv data
    (.ok { encrypted := ct.1, iv := P.b64 iv,
           authTag := P.b64 ct.2, salt := P.b64 salt }, r2.2)

/-- `SecureStorage.decrypt`: fetch the master key, re-derive the
per-record key from the stored salt, and authenticate-and-decrypt; an
authentication failure (`decipher.final` throwing) is a single error. -/
def decrypt (kc : KeychainFaults) (encryptedData : EncryptedData)
    (s : Storage) (P : JsPrims) : Except String String × Storage :=
  match getEncryptionKey kc s P with
  | (.error e, s1) => (.error e, s1)
  | (.ok masterKey, s1) =>
    let salt := P.b64dec encryptedData.salt
    let derivedKey := deriveKey P masterKey salt
    let iv := P.b64dec encryptedData.iv
    let authTag := P.b64dec encryptedData.authTag
    match P.gcmDec derivedKey iv authTag encryptedData.encrypted with
    | some decrypted => (.ok decrypted, s1)
    | none => (.error "Unsupported state or unable to authenticate data", s1)

/-- `SecureStorage.loadEncryptedFile`: `null` when the file is missing or
fails to parse. -/
def loadEncryptedFile : FileState EncryptedData → Option EncryptedData
  | .absent => none
  | .corrupt => none
  | .contains ed => some ed

/-- `SecureStorage.saveCredentials`: encrypt the JSON serialization and
write it to `credentials.enc`. -/
def saveCredentials (kc : KeychainFaults) (credentials : SecureCredentials)
    (s : Storage) (P : JsPrims) : Except String Unit × Storage :=
  match encrypt kc (P.serCreds credentials) s P with
  | (.error e, s1) => (.error e, s1)
  | (.ok encrypted, s1) => (.ok (), { s1 with credFile := .contains encrypted })

/-- `SecureStorage.getCredentials`: absent file gives `null`; a decrypt
or parse failure is caught and gives `null`. -/
def getCredentials (kc : KeychainFaults) (s : Storage) (P : JsPrims) :
    Option SecureCredentials × Storage :=
  match loadEncryptedFile s.credFile with
  | none => (none, s)
  | some encryptedData =>
    match decrypt kc encryptedData s P with
    | (.error _, s1) => (none, s1)
    | (.ok decrypted, s1) =>
      match P.parseCreds decrypted with
      | some creds => (some creds, s1)
      | none => (none, s1)

/-- `SecureStorage.hasCredentials`: `existsSync(this.credentialsPath)` —
a pure existence check, with no decryption. -/
def hasCredentials (s : Storage) : Bool :=
  match s.credFile with
  | .absent => false
  | _ => true

/-- `SecureStorage.clearToken`: delete `token.enc` and best-effort delete
the keychain `AUTH_TOKEN_ACCOUNT` entry (a keytar failure is ignored). -/
def clearToken (kc : KeychainFaults) (s : Storage) : Storage :=
  let s1 := { s with tokenFile := .absent }
  if kc.authDeleteFails then s1 else { s1 with keychainAuth := none }

/-- `SecureStorage.saveToken`: encrypt the JSON serialization, write it
to `token.enc`, then best-effort store the `accountId` in the keychain
(non-critical, a keytar failure is ignored). -/
def saveToken (kc : KeychainFaults) (tokenData : StoredTokenData)
    (s : Storage) (P : JsPrims) : Except String Unit × Storage :=
  match encrypt kc (P.serToken tokenData) s P with
  | (.error e, s1) => (.error e, s1)
  | (.ok encrypted, s1) =>
    let s2 := { s1 with tokenFile := .contains encrypted }
    if kc.authWriteFails then (.ok (), s2)
    else (.ok (), { s2 with keychainAuth := some tokenData.accountId })

/-- `SecureStorage.getToken` (`now` is `Date.now()`): absent file gives
`null`; a decrypt or parse failure is caught and gives `null` without
touching the file; a decrypted token is returned only while
`now < expires - 300000`, otherwise it is cleared and `null` returned. -/
def getToken (kc : KeychainFaults) (now : Int) (s : Storage) (P : JsPrims) :
    Option StoredTokenData × Storage :=
  match loadEncryptedFile s.tokenFile with
  | none => (none, s)
  | some encryptedData =>
    match decrypt kc encryptedData s P with
    | (.error _, s1) => (none, s1)
    | (.ok decrypted, s1) =>
      match P.parseToken decrypted with
      | none => (none, s1)
      | some tokenData =>
        -- Check if token is still valid (with 5 minute buffer)
        if now < tokenData.expires - EXPIRY_BUFFER then (some tokenData, s1)
        else (none, clearToken kc s1)

/-- `SecureStorage.hasValidToken`. -/
def hasValidToken (kc : KeychainFaults) (now : Int) (s : Storage)
    (P : JsPrims) : Bool × Storage :=
  match getToken kc now s P with
  | (token, s1) => (token.isSome, s1)

/-- The `cleanConfig` object `migrateFromLegacy` writes back: only the
non-sensitive settings, with the source's JS `||` defaulting. -/
def cleanConfig (d : LegacyData) : LegacyData :=
  { email := none, password := none, credentials := none, ranges := none,
    region := some ((jsOrS d.region (some "EU")).getD "EU"),
    targetLow := some ((jsOrI (jsOrI d.targetLow
      (d.ranges.bind LegacyRanges.target_low)) (some 70)).getD 70),
    targetHigh := some ((jsOrI (jsOrI d.targetHigh
      (d.ranges.bind LegacyRanges.target_high)) (some 180)).getD 180),
    clientVersion := some ((jsOrS d.clientVersion (some "4.16.0")).getD "4.16.0") }

/-- `SecureStorage.migrateFromLegacy`: if a legacy `config.json` parses
and holds a truthy email and password (top-level `||` nested under
`credentials`), save them into the Credential Vault, rewrite the file
with only the non-sensitive settings, and return `true`; otherwise
return `false`.  Any error (parse failure, or `saveCredentials`
throwing) is caught and yields `false`. -/
def migrateFromLegacy (kc : KeychainFaults) (s : Storage) (P : JsPrims) :
    Bool × Storage :=
  match s.legacyFile with
  | .absent => (false, s)
  | .corrupt => (false, s)   -- `JSON.parse` throws; caught, returns false
  | .contains legacyData =>
    let email := jsOrS legacyData.email (legacyData.credentials.bind LegacyCreds.email)
    let password := jsOrS legacyData.password (legacyData.credentials.bind LegacyCreds.password)
    if truthyS email && truthyS password then
      match saveCredentials kc ⟨email.getD "", password.getD ""⟩ s P with
      | (.error _, s1) => (false, s1)   -- caught by the surrounding try/catch
      | (.ok (), s1) =>
        (true, { s1 with legacyFile := .contains (cleanConfig legacyData) })
    else
      (false, s)

/-! ## LibreLinkClient (dist/librelink-client.js) -/

/-- `LIBRE_LINK_SERVERS` from types.ts. -/
def LIBRE_LINK_SERVERS : String → Option String
  | "AE" => some "https://api-ae.libreview.io"
  | "AP" => some "https://api-ap.libreview.io"
  | "AU" => some "https://api-au.libreview.io"
  | "CA" => some "https://api-ca.libreview.io"
  | "DE" => some "https://api-de.libreview.io"
  | "EU" => some "https://api-eu.libreview.io"
  | "EU2" => some "https://api-eu2.libreview.io"
  | "FR" => some "https://api-fr.libreview.io"
  | "JP" => some "https://api-jp.libreview.io"
  | "US" => some "https://api-us.libreview.io"
  | "LA" => some "https://api-la.libreview.io"
  | "RU" => some "https://api-ru.libreview.io"
  | "CN" => some "https://api-cn.libreview.io"
  | "GLOBAL" => some "https://api.libreview.io"
  | _ => none

/-- A connection record; only `patientId` is consumed by the client. -/
structure Connection where
  patientId : String
deriving DecidableEq, Repr

/-- What the login endpoint answers on one attempt
(`POST /llu/auth/login` through axios). -/
inductive LoginResp where
  /-- `data.data.redirect && data.data.region`: a regional redirect. -/
  | redirect (region : String)
  /-- `status === 0` with an `authTicket` (token, expires in seconds) and
  `user.id`. -/
  | success (token : String) (expiresSec : Int) (userId : String)
  /-- `status !== 0 || !authTicket`. -/
  | invalid
  /-- HTTP 403 with `data.minimumVersion`. -/
  | http403minVersion (v : String)
  /-- HTTP 403 with message `RequiredHeaderMissing`. -/
  | http403headerMissing
  /-- HTTP 401. -/
  | http401
  /-- Any other axios failure, with its message. -/
  | otherFail (msg : String)
deriving DecidableEq, Repr

/-- What one authenticated `GET /llu/connections` answers. -/
inductive DataResp where
  | ok (data : List Connection)
  /-- HTTP 401 (authorization failure). -/
  | err401
  /-- Any other failure, with its message. -/
  | errOther (msg : String)
deriving DecidableEq, Repr

/-- The network environment: the remaining answers of the login endpoint
and of the connections endpoint, consumed one per request. -/
structure Net where
  logins : List LoginResp
  datas : List DataResp
deriving DecidableEq, Repr

/-- The mutable fields of a `LibreLinkClient` instance, together with the
`SecureStorage` world behind its `configManager` (the ConfigManager's
token methods delegate directly to `SecureStorage`). -/
structure ClientState where
  jwtToken : Option String
  userId : Option String
  accountId : Option String
  tokenExpires : Int
  /-- `this.config.region`. -/
  configRegion : String
  /-- `this.config.clientVersion`. -/
  clientVersion : String
  baseUrl : String
  /-- Whether `this.configManager` is non-null. -/
  hasConfigManager : Bool
  storage : Storage
deriving DecidableEq, Repr

/-- `LibreLinkClient.isTokenValid` (`now` is `Date.now()`): requires a
truthy token and accountId, and `now < tokenExpires - 300000`. -/
def isTokenValid (now : Int) (c : ClientState) : Bool :=
  if !(truthyS c.jwtToken) || !(truthyS c.accountId) then false
  else now < c.tokenExpires - EXPIRY_BUFFER

/-- `LibreLinkClient.saveSession`: persist the in-memory token to the
Token Vault; missing configManager or fields make it a no-op; a
`saveToken` error is caught and logged. -/
def saveSession (kc : KeychainFaults) (c : ClientState) (P : JsPrims) :
    ClientState :=
  if !c.hasConfigManager || !(truthyS c.jwtToken) || !(truthyS c.userId)
      || !(truthyS c.accountId) then c
  else
    let tokenData : StoredTokenData :=
      { token := c.jwtToken.getD "", expires := c.tokenExpires,
        userId := c.userId.getD "", accountId := c.accountId.getD "",
        region := c.configRegion }
    -- a `saveToken` error is caught and logged; only the state is kept
    { c with storage := (saveToken kc tokenData c.storage P).2 }

/-- `LibreLinkClient.tryRestoreSession`: read the Token Vault; a token
whose region differs from the active configuration is cleared outright
and not adopted; otherwise the token is adopted into memory and the base
URL updated for its region. -/
def tryRestoreSession (kc : KeychainFaults) (now : Int) (c : ClientState)
    (P : JsPrims) : Bool × ClientState :=
  if !c.hasConfigManager then (false, c)
  else
    match getToken kc now c.storage P with
    | (none, s1) => (false, { c with storage := s1 })
    | (some storedToken, s1) =>
      let c1 := { c with storage := s1 }
      if storedToken.region != c1.configRegion then
        (false, { c1 with storage := clearToken kc c1.storage })
      else
        (true, { c1 with
          jwtToken := some storedToken.token,
          tokenExpires := storedToken.expires,
          userId := some storedToken.userId,
          accountId := some storedToken.accountId,
          baseUrl := (LIBRE_LINK_SERVERS storedToken.region).getD
            ((LIBRE_LINK_SERVERS "GLOBAL").getD "") })

/-- `LibreLinkClient.login`, with explicit fuel for the source's
retry-by-recursion on a regional redirect.  Consumes one login answer
per attempt; on success stores the token (expiry converted to ms),
derives `accountId = sha256hex(userId)` and persists the session. -/
def login (kc : KeychainFaults) (P : JsPrims) :
    Nat → ClientState → Net → Except String Unit × ClientState × Net
  | 0, c, net => (.error "out of fuel", c, net)
  | fuel + 1, c, net =>
    match net.logins with
    | [] => (.error "Login failed: no response", c, net)
    | resp :: rest =>
      let net1 : Net := { net with logins := rest }
      match resp with
      | .redirect region =>
        let newRegion := region.toUpper
        let c1 := { c with
          baseUrl := (LIBRE_LINK_SERVERS newRegion).getD
            ("https://api-" ++ region ++ ".libreview.io"),
          configRegion := newRegion }
        login kc P fuel c1 net1
      | .success token expiresSec userId =>
        let c1 := { c with
          jwtToken := some token,
          tokenExpires := expiresSec * 1000,
          userId := some userId,
          accountId := some (P.sha256hex userId) }
        (.ok (), saveSession kc c1 P, net1)
      | .invalid =>
        (.error "Login failed: Invalid response from LibreLink API", c, net1)
      | .http403minVersion v =>
        (.error ("API requires minimum version " ++ v ++ ". Current version: "
          ++ c.clientVersion ++
          ". Please update to the latest version of librelink-mcp-server-fixed."),
          c, net1)
      | .http403headerMissing =>
        (.error ("Required header missing. This usually means the Account-Id "
          ++ "header is not being sent. Please ensure you are using the fixed "
          ++ "version of the library."), c, net1)
      | .http401 =>
        (.error "Authentication failed. Please check your email and password.",
          c, net1)
      | .otherFail msg => (.error ("Login failed: " ++ msg), c, net1)

/-- `LibreLinkClient.ensureAuthenticated`: if the in-memory token is
invalid, try to restore from the vault; if still invalid, log in. -/
def ensureAuthenticated (kc : KeychainFaults) (P : JsPrims) (fuel : Nat)
    (now : Int) (c : ClientState) (net : Net) :
    Except String Unit × ClientState × Net :=
  if isTokenValid now c then (.ok (), c, net)
  else
    let tr := tryRestoreSession kc now c P
    if tr.1 && isTokenValid now tr.2 then (.ok (), tr.2, net)
    else if !(isTokenValid now tr.2) then login kc P fuel tr.2 net
    else (.ok (), tr.2, net)

/-- `LibreLinkClient.getConnections` (the dist build cited by the spec),
with explicit fuel for the source's retry-by-recursion: authenticate,
issue the GET; on a 401 clear the vault token and the in-memory token,
re-authenticate, and recursively retry the whole call; other errors
propagate. -/
def getConnections (kc : KeychainFaults) (P : JsPrims) :
    Nat → Int → ClientState → Net →
    Except String (List Connection) × ClientState × Net
  | 0, _, c, net => (.error "out of fuel", c, net)
  | fuel + 1, now, c, net =>
    match ensureAuthenticated kc P fuel now c net with
    | (.error e, c1, net1) => (.error e, c1, net1)
    | (.ok (), c1, net1) =>
      -- `createAuthenticatedClient` throws without a token / accountId
      if !(truthyS c1.jwtToken) || !(truthyS c1.accountId) then
        (.error "Not authenticated. Call login() first.", c1, net1)
      else
        match net1.datas with
        | [] => (.error "no response", c1, net1)
        | resp :: rest =>
          let net2 : Net := { net1 with datas := rest }
          match resp with
          | .ok data => (.ok data, c1, net2)
          | .err401 =>
            -- Token expired, clear stored token and re-login
            let c2 := if c1.hasConfigManager then
                { c1 with storage := clearToken kc c1.storage } else c1
            let c3 := { c2 with jwtToken := none }
            match ensureAuthenticated kc P fuel now c3 net2 with
            | (.error e, c4, net3) => (.error e, c4, net3)
            | (.ok (), c4, net3) => getConnections kc P fuel now c4 net3
          | .errOther msg => (.error msg, c1, net2)

/-! ## A concrete instantiation of the external primitives

Used to exercise the parametric embedding on closed inputs.  It is a toy
stand-in for node:crypto / Buffer / JSON — executable and satisfying the
laws the real primitives provide (codec round-trips, AEAD round-trip and
authentication) — not a model of AES itself. -/

/-- Toy byte-string-to-string codec standing in for Buffer base64/hex
encoding: one character per byte. -/
def toyEnc (b : Bytes) : String :=
  String.mk (b.map fun v => Char.ofNat v.val)

/-- Inverse of `toyEnc`. -/
def toyDec (s : String) : Bytes :=
  s.data.map fun c => Fin.ofNat (n := 255) c.toNat

/-- Toy AEAD: ciphertext is the plaintext, the tag commits to key and iv. -/
def toyGcmEnc (key iv : Bytes) (data : String) : String × Bytes :=
  (data, key ++ iv)

/-- Toy AEAD decryption: succeeds only when the tag matches key and iv. -/
def toyGcmDec (key iv tag : Bytes) (ct : String) : Option String :=
  if tag == key ++ iv then some ct else none

/-- Field separator for the toy JSON stand-in. -/
def unitSep : Char := Char.ofNat 31

/-- Split a character list on the separator (structural recursion). -/
def splitOnSep (l : List Char) : List (List Char) :=
  match l with
  | [] => [[]]
  | x :: xs =>
    if x == unitSep then [] :: splitOnSep xs
    else
      match splitOnSep xs with
      | [] => [[x]]
      | y :: ys => (x :: y) :: ys

/-- Parse a decimal digit string. -/
def digitChars (l : List Char) : Option Nat :=
  l.foldl (fun acc c =>
    match acc with
    | none => none
    | some n => if c.isDigit then some (n * 10 + (c.toNat - 48)) else none)
    (some 0)

/-- Parse an optionally signed decimal integer. -/
def charsToInt (l : List Char) : Option Int :=
  match l with
  | [] => none
  | c :: rest =>
    if c == '-' then (digitChars rest).map (fun n => -(n : Int))
    else (digitChars l).map (fun n => (n : Int))

/-- Toy `JSON.stringify` of a credentials object. -/
def toySerCreds (c : SecureCredentials) : String :=
  c.email ++ String.singleton unitSep ++ c.password

/-- Toy `JSON.parse` of a credentials object. -/
def toyParseCreds (s : String) : Option SecureCredentials :=
  match splitOnSep s.data with
  | [e, p] => some ⟨String.mk e, String.mk p⟩
  | _ => none

/-- Toy `JSON.stringify` of a token record. -/
def toySerToken (t : StoredTokenData) : String :=
  t.token ++ String.singleton unitSep ++ toString t.expires ++
    String.singleton unitSep ++ t.userId ++ String.singleton unitSep ++
    t.accountId ++ String.singleton unitSep ++ t.region

/-- Toy `JSON.parse` of a token record. -/
def toyParseToken (s : String) : Option StoredTokenData :=
  match splitOnSep s.data with
  | [tok, e, u, a, r] =>
    match charsToInt e with
    | some n => some ⟨String.mk tok, n, String.mk u, String.mk a, String.mk r⟩
    | none => none
  | _ => none

/-- The toy instantiation of every external primitive. -/
def toyPrims : JsPrims :=
  { scrypt := fun mk salt n => fitLen n (mk ++ salt)
    gcmEnc := toyGcmEnc
    gcmDec := toyGcmDec
    b64 := toyEnc
    b64dec := toyDec
    hexEnc := toyEnc
    hexDec := toyDec
    serCreds := toySerCreds
    parseCreds := toyParseCreds
    serToken := toySerToken
    parseToken := toyParseToken
    sha256hex := fun s => "sha256:" ++ s }

/-- An empty storage world with a given entropy trace. -/
def emptyStorage (rand : List Bytes) : Storage :=
  { encryptionKey := none, credFile := .absent, tokenFile := .absent,
    legacyFile := .absent, keychainKey := none, keychainAuth := none,
    rand := rand }

/-- The all-clear keychain fault profile. -/
def noFaults : KeychainFaults :=
  { readFails := false, writeFails := false,
    authWriteFails := false, authDeleteFails := false }

/-- Concrete world for the round-trip check: cached master key and two
entropy entries (salt, then iv). -/
def rtW : Storage :=
  { emptyStorage [List.replicate 32 1, List.replicate 16 2] with
      encryptionKey := some [3] }

/-- The concrete encryption run of the round-trip check. -/
def rtEnc : Except String EncryptedData × Storage :=
  encrypt noFaults "hi" rtW toyPrims

/-- Its encrypted record. -/
def rtEd : EncryptedData := (rtEnc.1.toOption).getD ⟨"", "", "", ""⟩

/-- Concrete world for the key-generation check. -/
def c5sC : Storage := emptyStorage [[3]]

/-- The concrete successful key-provisioning run. -/
def c5run : Except String Bytes × Storage :=
  getEncryptionKey noFaults c5sC toyPrims

/-- The key it returns. -/
def c5k : Bytes := (c5run.1.toOption).getD []

/-- The world it leaves. -/
def c5s1 : Storage := c5run.2

/-- A record whose auth tag cannot authenticate under the toy AEAD. -/
def c6ed : EncryptedData :=
  { encrypted := "x", iv := toyEnc [1], authTag := toyEnc [9], salt := toyEnc [2] }

/-- World holding the unauthenticatable record in both vault files. -/
def c6s : Storage :=
  { emptyStorage [] with
      encryptionKey := some [3],
      credFile := .contains c6ed, tokenFile := .contains c6ed }

/-- A record whose auth tag cannot authenticate, for the frame check. -/
def c9ed : EncryptedData :=
  { encrypted := "y", iv := toyEnc [4], authTag := toyEnc [8], salt := toyEnc [5] }

/-- World holding that record in the token file. -/
def c9s : Storage :=
  { emptyStorage [] with encryptionKey := some [3], tokenFile := .contains c9ed }

/-- A concrete token record that is one millisecond expired at
`now = 1000000`. -/
def c2td : StoredTokenData :=
  { token := "tok", expires := 999999, userId := "u",
    accountId := "acct", region := "EU" }

/-- Its toy serialization. -/
def c2plain : String := toySerToken c2td

/-- The per-record key the toy scrypt derives for master key `[3]` and
salt `[2]`. -/
def c2dk : Bytes := fitLen KEY_LENGTH ([3] ++ [2])

/-- A well-authenticated encryption of `c2plain` under the toy AEAD. -/
def c2ed : EncryptedData :=
  { encrypted := c2plain, iv := toyEnc [1],
    authTag := toyEnc (c2dk ++ [1]), salt := toyEnc [2] }

/-- World holding that token record. -/
def c2s : Storage :=
  { emptyStorage [] with encryptionKey := some [3], tokenFile := .contains c2ed }

/-- World with a present-but-unparseable credentials file. -/
def c10s : Storage := { emptyStorage [] with credFile := .corrupt }

/-- World with cached key and four distinct entropy entries for two
consecutive encryptions. -/
def c7s : Storage :=
  { emptyStorage [List.replicate 32 1, List.replicate 16 1,
      List.replicate 32 2, List.replicate 16 3] with
      encryptionKey := some [3] }

/-- A legacy config file with top-level credentials. -/
def c8d : LegacyData :=
  { email := some "a@b.com", password := some "p@ss1", credentials := none,
    region := some "EU", targetLow := none, targetHigh := none,
    clientVersion := none, ranges := none }

/-- World holding that legacy file, with a cached master key. -/
def c8s : Storage :=
  { emptyStorage [[1], [2]] with
      encryptionKey := some [3], legacyFile := .contains c8d }

/-- A stored EU-region token, unexpired at `now = 0`. -/
def c4td : StoredTokenData :=
  { token := "tokEU", expires := 10000000, userId := "u",
    accountId := "acct", region := "EU" }

/-- Its toy serialization. -/
def c4plain : String := toySerToken c4td

/-- A well-authenticated encryption of `c4plain` under the toy AEAD. -/
def c4ed : EncryptedData :=
  { encrypted := c4plain, iv := toyEnc [1],
    authTag := toyEnc (c2dk ++ [1]), salt := toyEnc [2] }

/-- World holding the EU token. -/
def c4s : Storage :=
  { emptyStorage [] with encryptionKey := some [3], tokenFile := .contains c4ed }

/-- A client configured for the US region, with no in-memory session,
whose vault holds the EU token. -/
def c4c : ClientState :=
  { jwtToken := none, userId := none, accountId := none, tokenExpires := 0,
    configRegion := "US", clientVersion := "4.16.0",
    baseUrl := "https://api-us.libreview.io", hasConfigManager := true,
    storage := c4s }

/-- A network that will answer the next login with a fresh token. -/
def c4net : Net :=
  { logins := [.success "newTok" 10000 "uid1"], datas := [] }

/-- A client with a valid in-memory session (at `now = 0`). -/
def c1c : ClientState :=
  { jwtToken := some "t0", userId := some "u0", accountId := some "a0",
    tokenExpires := 1000000000, configRegion := "EU",
    clientVersion := "4.16.0", baseUrl := "https://api-eu.libreview.io",
    hasConfigManager := true,
    storage := { emptyStorage [] with encryptionKey := some [3] } }

/-- A trace answering the data call with two consecutive 401s and then
success, the login endpoint succeeding each time. -/
def c1net : Net :=
  { logins := [.success "t1" 1000000 "u1", .success "t2" 1000000 "u2"],
    datas := [.err401, .err401, .ok [⟨"p1"⟩]] }

/-! ## Theorems -/

theorem fitLen_length (n : Nat) (e : Bytes) : (fitLen n e).length = n := by
  simp [fitLen, List.length_take, List.length_replicate]
  omega

theorem fitLen_eq_of_length {n : Nat} {e : Bytes} (h : e.length = n) :
    fitLen n e = e := by
  simp [fitLen, h, List.take_of_length_le (le_of_eq h)]

theorem toyChar_rt :
    ∀ v : Byte, Fin.ofNat (n := 255) (Char.ofNat v.val).toNat = v := by
  decide

theorem toyDec_toyEnc (b : Bytes) : toyDec (toyEnc b) = b := by
  simp [toyDec, toyEnc]
  induction b with
  | nil => rfl
  | cons x xs ih => simp_all [toyChar_rt]

theorem toyPrims_b64_roundtrip :
    ∀ b : Bytes, toyPrims.b64dec (toyPrims.b64 b) = b := by
  intro b
  simpa [toyPrims] using toyDec_toyEnc b

theorem toyPrims_gcm_roundtrip : ∀ (k iv : Bytes) (p : String),
    toyPrims.gcmDec k iv (toyPrims.gcmEnc k iv p).2 (toyPrims.gcmEnc k iv p).1
      = some p := by
  intro k iv p
  simp [toyPrims, toyGcmEnc, toyGcmDec]

theorem randomBytes_snd (n : Nat) (s : Storage) :
    ∃ r, (randomBytes n s).2 = { s with rand := r } := by
  unfold randomBytes
  cases h : s.rand with
  | nil => exact ⟨s.rand, by simp⟩
  | cons e rest => exact ⟨rest, rfl⟩

theorem randomBytes_encryptionKey (n : Nat) (s : Storage) :
    ((randomBytes n s).2).encryptionKey = s.encryptionKey := by
  unfold randomBytes
  rcases hr : s.rand with _ | ⟨e, rest⟩ <;> simp [hr]

/-- `getEncryptionKey` never touches the encrypted files, the legacy file
or the auth-token keychain slot. -/
theorem getEncryptionKey_files (kc : KeychainFaults) (s : Storage)
    (P : JsPrims) :
    ((getEncryptionKey kc s P).2).credFile = s.credFile ∧
    ((getEncryptionKey kc s P).2).tokenFile = s.tokenFile ∧
    ((getEncryptionKey kc s P).2).legacyFile = s.legacyFile ∧
    ((getEncryptionKey kc s P).2).keychainAuth = s.keychainAuth := by
  unfold getEncryptionKey getEncryptionKey.generateNewKey randomBytes
  rcases hek : s.encryptionKey with _ | k0 <;>
    rcases hrf : kc.readFails <;>
    rcases hwf : kc.writeFails <;>
    rcases hkk : s.keychainKey with _ | hex <;>
    rcases hrand : s.rand with _ | ⟨e, rest⟩ <;>
    simp_all
  all_goals by_cases hemp : hex.isEmpty = true <;> simp [hemp]

/-- After a successful `getEncryptionKey`, the returned key is cached. -/
theorem getEncryptionKey_caches {kc : KeychainFaults} {s : Storage}
    {P : JsPrims} {k : Bytes} {s1 : Storage}
    (h : getEncryptionKey kc s P = (.ok k, s1)) :
    s1.encryptionKey = some k := by
  unfold getEncryptionKey getEncryptionKey.generateNewKey randomBytes at h
  rcases hek : s.encryptionKey with _ | k0 <;>
    rcases hrf : kc.readFails <;>
    rcases hwf : kc.writeFails <;>
    rcases hkk : s.keychainKey with _ | hex <;>
    rcases hrand : s.rand with _ | ⟨e, rest⟩ <;>
    simp_all
  all_goals try (by_cases hemp : hex.isEmpty = true <;> simp [hemp] at h)
  all_goals obtain ⟨h1, h2⟩ := h
  all_goals subst h2
  all_goals simp_all

/-- With a cached key, `getEncryptionKey` returns it and leaves the world
untouched. -/
theorem getEncryptionKey_of_cached {s : Storage} {k : Bytes}
    (kc : KeychainFaults) (P : JsPrims) (h : s.encryptionKey = some k) :
    getEncryptionKey kc s P = (.ok k, s) := by
  unfold getEncryptionKey
  rw [h]

/-- **C3** For every payload, decrypting the record produced by
encrypting it (under the same master key, which the successful
encryption left cached) returns the payload exactly, provided the
external AES-GCM and base64 primitives satisfy their round-trip
contracts. -/
theorem decrypt_encrypt_roundtrip
    (P : JsPrims) (kc : KeychainFaults) (data : String) (s s1 : Storage)
    (ed : EncryptedData)
    (hb : ∀ b, P.b64dec (P.b64 b) = b)
    (hg : ∀ k iv p, P.gcmDec k iv (P.gcmEnc k iv p).2 (P.gcmEnc k iv p).1 = some p)
    (henc : encrypt kc data s P = (.ok ed, s1)) :
    decrypt kc ed s1 P = (.ok data, s1) := by
  unfold encrypt at henc
  rcases hk : getEncryptionKey kc s P with ⟨ek, sk⟩
  rw [hk] at henc
  cases ek with
  | error e => simp at henc
  | ok mk =>
    simp only [Prod.mk.injEq, Except.ok.injEq] at henc
    obtain ⟨hed, hs1⟩ := henc
    have hkey : s1.encryptionKey = some mk := by
      have h1 := getEncryptionKey_caches hk
      rw [← hs1, randomBytes_encryptionKey, randomBytes_encryptionKey]
      exact h1
    unfold decrypt
    rw [getEncryptionKey_of_cached kc P hkey, ← hed]
    simp [hb, hg]

/-- Closed check of `decrypt_encrypt_roundtrip` on a concrete world. -/
theorem decrypt_encrypt_roundtrip_witness :
    decrypt noFaults rtEd rtEnc.2 toyPrims = (.ok "hi", rtEnc.2) :=
  decrypt_encrypt_roundtrip toyPrims noFaults "hi" rtW rtEnc.2 rtEd
    toyPrims_b64_roundtrip toyPrims_gcm_roundtrip (by rfl)

/-- **C5** The master-key provider: a keychain read failure is non-fatal
and leads to generating a fresh 32-byte random key that is persisted; a
keychain write failure for the newly generated key is fatal with the
configuration error message; once a key has been obtained (by any
route), every subsequent call returns it from the in-memory cache with
the world untouched, whatever the keychain would do. -/
theorem getEncryptionKey_contract
    (P : JsPrims) (kcA kcB kcC kcD : KeychainFaults) (sA sB sC : Storage)
    (k : Bytes) (s1 : Storage)
    (hA : sA.encryptionKey = none) (hAr : kcA.readFails = true)
    (hAw : kcA.writeFails = false)
    (hB : sB.encryptionKey = none) (hBr : kcB.readFails = true)
    (hBw : kcB.writeFails = true)
    (hC : getEncryptionKey kcC sC P = (.ok k, s1)) :
    (getEncryptionKey kcA sA P =
      (.ok (randomBytes KEY_LENGTH sA).1,
       { (randomBytes KEY_LENGTH sA).2 with
           keychainKey := some (P.hexEnc (randomBytes KEY_LENGTH sA).1),
           encryptionKey := some (randomBytes KEY_LENGTH sA).1 })) ∧
    ((randomBytes KEY_LENGTH sA).1).length = KEY_LENGTH ∧
    ((getEncryptionKey kcB sB P).1 =
      .error ("Failed to store encryption key in system keychain. " ++
        "Please ensure your system supports secure credential storage.")) ∧
    getEncryptionKey kcD s1 P = (.ok k, s1) := by
  refine ⟨?_, ?_, ?_, ?_⟩
  · simp [getEncryptionKey, getEncryptionKey.generateNewKey, hA, hAr, hAw]
  · unfold randomBytes
    cases sA.rand with
    | nil => simp
    | cons e rest => simp [fitLen_length]
  · simp [getEncryptionKey, getEncryptionKey.generateNewKey, hB, hBr, hBw]
  · exact getEncryptionKey_of_cached kcD P (getEncryptionKey_caches hC)

/-- Closed check of `getEncryptionKey_contract` on concrete worlds and
fault profiles. -/
theorem getEncryptionKey_contract_witness :
    (getEncryptionKey ⟨true, false, false, false⟩ (emptyStorage [[1]]) toyPrims =
      (.ok (randomBytes KEY_LENGTH (emptyStorage [[1]])).1,
       { (randomBytes KEY_LENGTH (emptyStorage [[1]])).2 with
           keychainKey := some (toyPrims.hexEnc
             (randomBytes KEY_LENGTH (emptyStorage [[1]])).1),
           encryptionKey := some (randomBytes KEY_LENGTH (emptyStorage [[1]])).1 })) ∧
    ((randomBytes KEY_LENGTH (emptyStorage [[1]])).1).length = KEY_LENGTH ∧
    ((getEncryptionKey ⟨true, true, false, false⟩ (emptyStorage [[2]]) toyPrims).1 =
      .error ("Failed to store encryption key in system keychain. " ++
        "Please ensure your system supports secure credential storage.")) ∧
    getEncryptionKey noFaults c5s1 toyPrims = (.ok c5k, c5s1) :=
  getEncryptionKey_contract toyPrims ⟨true, false, false, false⟩
    ⟨true, true, false, false⟩ noFaults noFaults
    (emptyStorage [[1]]) (emptyStorage [[2]]) c5sC c5k c5s1
    rfl rfl rfl rfl rfl rfl (by rfl)

/-- `decrypt` only threads the state of `getEncryptionKey` through. -/
theorem decrypt_snd (P : JsPrims) (kc : KeychainFaults) (ed : EncryptedData)
    (s : Storage) : (decrypt kc ed s P).2 = (getEncryptionKey kc s P).2 := by
  unfold decrypt
  rcases h : getEncryptionKey kc s P with ⟨ek, sk⟩
  cases ek with
  | error e => simp
  | ok mk =>
    dsimp only
    rcases hg : P.gcmDec (deriveKey P mk (P.b64dec ed.salt)) (P.b64dec ed.iv)
        (P.b64dec ed.authTag) ed.encrypted with _ | p <;> simp [hg]

/-- `clearToken` always leaves the token file absent. -/
theorem clearToken_tokenFile (kc : KeychainFaults) (s : Storage) :
    (clearToken kc s).tokenFile = .absent := by
  unfold clearToken
  split <;> rfl

/-- **C6** A record whose authentication fails makes `decrypt` fail with
the single decryption error (no plaintext is ever produced), and the
vault getters catch this and report the secret as absent rather than
crashing. -/
theorem decrypt_auth_failure
    (P : JsPrims) (kc : KeychainFaults) (ed : EncryptedData)
    (s s1 : Storage) (mk : Bytes) (now : Int)
    (hk : getEncryptionKey kc s P = (.ok mk, s1))
    (hfail : P.gcmDec (deriveKey P mk (P.b64dec ed.salt)) (P.b64dec ed.iv)
      (P.b64dec ed.authTag) ed.encrypted = none) :
    decrypt kc ed s P =
      (.error "Unsupported state or unable to authenticate data", s1) ∧
    (s.credFile = .contains ed → getCredentials kc s P = (none, s1)) ∧
    (s.tokenFile = .contains ed → getToken kc now s P = (none, s1)) := by
  have hdec : decrypt kc ed s P =
      (.error "Unsupported state or unable to authenticate data", s1) := by
    unfold decrypt
    rw [hk]
    simp only [hfail]
  refine ⟨hdec, ?_, ?_⟩
  · intro hc
    unfold getCredentials
    rw [hc]
    simp [loadEncryptedFile, hdec]
  · intro ht
    unfold getToken
    rw [ht]
    simp [loadEncryptedFile, hdec]

/-- Closed check of `decrypt_auth_failure` on a concrete tampered
record. -/
theorem decrypt_auth_failure_witness :
    decrypt noFaults c6ed c6s toyPrims =
      (.error "Unsupported state or unable to authenticate data", c6s) ∧
    (c6s.credFile = .contains c6ed →
      getCredentials noFaults c6s toyPrims = (none, c6s)) ∧
    (c6s.tokenFile = .contains c6ed →
      getToken noFaults 0 c6s toyPrims = (none, c6s)) :=
  decrypt_auth_failure toyPrims noFaults c6ed c6s c6s [3] 0 (by rfl) (by rfl)

/-- **C9** When the stored token record loads but fails to decrypt,
`getToken` returns absent WITHOUT deleting the on-disk record: the file
is removed only on the expiry path. -/
theorem getToken_decrypt_failure_keeps_file
    (P : JsPrims) (kc : KeychainFaults) (now : Int) (s s1 : Storage)
    (ed : EncryptedData) (e : String)
    (hfile : s.tokenFile = .contains ed)
    (hdec : decrypt kc ed s P = (.error e, s1)) :
    getToken kc now s P = (none, s1) ∧ s1.tokenFile = s.tokenFile := by
  constructor
  · unfold getToken
    rw [hfile]
    simp [loadEncryptedFile, hdec]
  · have h2 : s1 = (getEncryptionKey kc s P).2 := by
      rw [← decrypt_snd P kc ed s, hdec]
    rw [h2]
    exact (getEncryptionKey_files kc s P).2.1

/-- Closed check of `getToken_decrypt_failure_keeps_file`: the
undecryptable record stays on disk. -/
theorem getToken_decrypt_failure_keeps_file_witness :
    getToken noFaults 0 c9s toyPrims = (none, c9s) ∧
    c9s.tokenFile = c9s.tokenFile :=
  getToken_decrypt_failure_keeps_file toyPrims noFaults 0 c9s c9s c9ed
    "Unsupported state or unable to authenticate data" (by rfl) (by rfl)

/-- **C2** For a stored, decryptable, parseable token record, `getToken`
returns it exactly when `now < expires - 300000`; otherwise it actively
clears the stored record (so a subsequent load finds nothing) and
returns absent. -/
theorem getToken_expiry_contract
    (P : JsPrims) (kc : KeychainFaults) (now : Int) (s s1 : Storage)
    (ed : EncryptedData) (plain : String) (td : StoredTokenData)
    (hfile : s.tokenFile = .contains ed)
    (hdec : decrypt kc ed s P = (.ok plain, s1))
    (hparse : P.parseToken plain = some td) :
    ((getToken kc now s P).1 = some td ↔ now < td.expires - EXPIRY_BUFFER) ∧
    (now < td.expires - EXPIRY_BUFFER → getToken kc now s P = (some td, s1)) ∧
    (¬ now < td.expires - EXPIRY_BUFFER →
      getToken kc now s P = (none, clearToken kc s1) ∧
      (clearToken kc s1).tokenFile = .absent ∧
      loadEncryptedFile ((clearToken kc s1).tokenFile) = none) := by
  have hrun : getToken kc now s P =
      (if now < td.expires - EXPIRY_BUFFER then (some td, s1)
       else (none, clearToken kc s1)) := by
    unfold getToken
    rw [hfile]
    simp [loadEncryptedFile, hdec, hparse]
  refine ⟨?_, ?_, ?_⟩
  · by_cases h : now < td.expires - EXPIRY_BUFFER <;> simp [hrun, h]
  · intro h
    rw [hrun, if_pos h]
  · intro h
    rw [hrun, if_neg h]
    exact ⟨rfl, clearToken_tokenFile kc s1, by
      rw [clearToken_tokenFile kc s1]
      rfl⟩

/-- Closed check of `getToken_expiry_contract` at a token one
millisecond past expiry (`expires = now - 1`): never returned, record
cleared. -/
theorem getToken_expiry_contract_witness :
    (((getToken noFaults 1000000 c2s toyPrims).1 = some c2td) ↔
      (1000000 : Int) < c2td.expires - EXPIRY_BUFFER) ∧
    ((1000000 : Int) < c2td.expires - EXPIRY_BUFFER →
      getToken noFaults 1000000 c2s toyPrims = (some c2td, c2s)) ∧
    (¬ (1000000 : Int) < c2td.expires - EXPIRY_BUFFER →
      getToken noFaults 1000000 c2s toyPrims = (none, clearToken noFaults c2s) ∧
      (clearToken noFaults c2s).tokenFile = .absent ∧
      loadEncryptedFile ((clearToken noFaults c2s).tokenFile) = none) :=
  getToken_expiry_contract toyPrims noFaults 1000000 c2s c2s c2ed c2plain c2td
    (by rfl) (by rfl) (by decide)

/-- **C10** `hasCredentials` is a pure file-existence check — true
exactly when the credentials file is present, with no decryption — so it
can report `true` while `getCredentials` reports absent, as on a
present-but-corrupt record. -/
theorem hasCredentials_existence_only :
    (∀ s : Storage, hasCredentials s = true ↔ s.credFile ≠ .absent) ∧
    (hasCredentials c10s = true ∧
     getCredentials noFaults c10s toyPrims = (none, c10s)) := by
  constructor
  · intro s
    unfold hasCredentials
    rcases s.credFile <;> simp
  · exact ⟨rfl, rfl⟩

/-- Closed check of `hasCredentials_existence_only` on the corrupt-file
world. -/
theorem hasCredentials_existence_only_witness :
    hasCredentials c10s = true ∧
    getCredentials noFaults c10s toyPrims = (none, c10s) :=
  hasCredentials_existence_only.2

theorem randomBytes_credFile (n : Nat) (s : Storage) :
    ((randomBytes n s).2).credFile = s.credFile := by
  unfold randomBytes
  rcases hr : s.rand with _ | ⟨e, rest⟩ <;> simp [hr]

theorem randomBytes_tokenFile (n : Nat) (s : Storage) :
    ((randomBytes n s).2).tokenFile = s.tokenFile := by
  unfold randomBytes
  rcases hr : s.rand with _ | ⟨e, rest⟩ <;> simp [hr]

theorem randomBytes_legacyFile (n : Nat) (s : Storage) :
    ((randomBytes n s).2).legacyFile = s.legacyFile := by
  unfold randomBytes
  rcases hr : s.rand with _ | ⟨e, rest⟩ <;> simp [hr]

/-- `encrypt` under a cached master key, fully evaluated: the salt is the
first entropy draw, the iv the second. -/
theorem encrypt_of_cached {s : Storage} {mk : Bytes} (P : JsPrims)
    (kc : KeychainFaults) (data : String) (hk : s.encryptionKey = some mk) :
    encrypt kc data s P =
      (.ok { encrypted := (P.gcmEnc (deriveKey P mk (randomBytes SALT_LENGTH s).1)
               (randomBytes IV_LENGTH (randomBytes SALT_LENGTH s).2).1 data).1,
             iv := P.b64 (randomBytes IV_LENGTH (randomBytes SALT_LENGTH s).2).1,
             authTag := P.b64 (P.gcmEnc (deriveKey P mk (randomBytes SALT_LENGTH s).1)
               (randomBytes IV_LENGTH (randomBytes SALT_LENGTH s).2).1 data).2,
             salt := P.b64 (randomBytes SALT_LENGTH s).1 },
       (randomBytes IV_LENGTH (randomBytes SALT_LENGTH s).2).2) := by
  unfold encrypt
  rw [getEncryptionKey_of_cached kc P hk]

/-- **C7** Every call to `encrypt` draws a fresh random 32-byte salt and
then a fresh random 16-byte iv from the entropy source; two encryptions
whose randomness differs produce records with different `salt` fields
and different `iv` fields (base64 encoding is injective since it has a
left inverse). -/
theorem encrypt_fresh_salt_iv
    (P : JsPrims) (kc : KeychainFaults) (d1 d2 : String) (s : Storage)
    (mk : Bytes) (e1 e2 e3 e4 : Bytes) (r : List Bytes)
    (hk : s.encryptionKey = some mk)
    (hrand : s.rand = e1 :: e2 :: e3 :: e4 :: r)
    (hl1 : e1.length = SALT_LENGTH) (hl2 : e2.length = IV_LENGTH)
    (hl3 : e3.length = SALT_LENGTH) (hl4 : e4.length = IV_LENGTH)
    (hne13 : e1 ≠ e3) (hne24 : e2 ≠ e4)
    (hb : ∀ b, P.b64dec (P.b64 b) = b) :
    ((encrypt kc d1 s P).1.toOption.map EncryptedData.salt = some (P.b64 e1)) ∧
    ((encrypt kc d1 s P).1.toOption.map EncryptedData.iv = some (P.b64 e2)) ∧
    ((encrypt kc d2 (encrypt kc d1 s P).2 P).1.toOption.map EncryptedData.salt
      = some (P.b64 e3)) ∧
    ((encrypt kc d2 (encrypt kc d1 s P).2 P).1.toOption.map EncryptedData.iv
      = some (P.b64 e4)) ∧
    P.b64 e1 ≠ P.b64 e3 ∧ P.b64 e2 ≠ P.b64 e4 := by
  have r1 : randomBytes SALT_LENGTH s = (e1, { s with rand := e2 :: e3 :: e4 :: r }) := by
    unfold randomBytes
    rw [hrand]
    simp [fitLen_eq_of_length hl1]
  have r2 : randomBytes IV_LENGTH { s with rand := e2 :: e3 :: e4 :: r } =
      (e2, { s with rand := e3 :: e4 :: r }) := by
    unfold randomBytes
    simp [fitLen_eq_of_length hl2]
  have r3 : randomBytes SALT_LENGTH { s with rand := e3 :: e4 :: r } =
      (e3, { s with rand := e4 :: r }) := by
    unfold randomBytes
    simp [fitLen_eq_of_length hl3]
  have r4 : randomBytes IV_LENGTH { s with rand := e4 :: r } =
      (e4, { s with rand := r }) := by
    unfold randomBytes
    simp [fitLen_eq_of_length hl4]
  have h1 := encrypt_of_cached P kc d1 hk
  rw [r1] at h1
  simp only at h1
  rw [r2] at h1
  simp only at h1
  have hk1 : ({ s with rand := e3 :: e4 :: r } : Storage).encryptionKey = some mk := hk
  have h2 := encrypt_of_cached P kc d2 hk1
  rw [r3] at h2
  simp only at h2
  rw [r4] at h2
  simp only at h2
  have hinj : ∀ a b : Bytes, P.b64 a = P.b64 b → a = b := by
    intro a b hab
    rw [← hb a, hab, hb b]
  refine ⟨?_, ?_, ?_, ?_, ?_, ?_⟩
  · rw [h1]; rfl
  · rw [h1]; rfl
  · rw [h1]; simp only; rw [h2]; rfl
  · rw [h1]; simp only; rw [h2]; rfl
  · exact fun h => hne13 (hinj e1 e3 h)
  · exact fun h => hne24 (hinj e2 e4 h)

/-- Closed check of `encrypt_fresh_salt_iv` on a concrete world with
four distinct entropy entries. -/
theorem encrypt_fresh_salt_iv_witness :
    ((encrypt noFaults "a" c7s toyPrims).1.toOption.map EncryptedData.salt
      = some (toyPrims.b64 (List.replicate 32 1))) ∧
    ((encrypt noFaults "a" c7s toyPrims).1.toOption.map EncryptedData.iv
      = some (toyPrims.b64 (List.replicate 16 1))) ∧
    ((encrypt noFaults "b" (encrypt noFaults "a" c7s toyPrims).2 toyPrims).1.toOption.map
      EncryptedData.salt = some (toyPrims.b64 (List.replicate 32 2))) ∧
    ((encrypt noFaults "b" (encrypt noFaults "a" c7s toyPrims).2 toyPrims).1.toOption.map
      EncryptedData.iv = some (toyPrims.b64 (List.replicate 16 3))) ∧
    toyPrims.b64 (List.replicate 32 1) ≠ toyPrims.b64 (List.replicate 32 2) ∧
    toyPrims.b64 (List.replicate 16 1) ≠ toyPrims.b64 (List.replicate 16 3) :=
  encrypt_fresh_salt_iv toyPrims noFaults "a" "b" c7s [3]
    (List.replicate 32 1) (List.replicate 16 1)
    (List.replicate 32 2) (List.replicate 16 3) []
    rfl rfl (by decide) (by decide) (by decide) (by decide)
    (by decide) (by decide) toyPrims_b64_roundtrip

/-- **C8** Legacy migration: a first run on a file with a truthy
email/password pair migrates them into the Credential Vault, rewrites
the legacy file to the scrubbed `cleanConfig` (no `email`, `password` or
`credentials` fields), and returns `true`; a second run on the resulting
state returns `false` and leaves the whole state (Credential Vault
included) unchanged; running with no legacy file at all is a no-op
returning `false`. -/
theorem migrateFromLegacy_contract
    (P : JsPrims) (kc kc2 kc3 : KeychainFaults) (s s0 : Storage)
    (d : LegacyData) (mk : Bytes)
    (hleg : s.legacyFile = .contains d)
    (hkey : s.encryptionKey = some mk)
    (hemail : truthyS (jsOrS d.email (d.credentials.bind LegacyCreds.email)) = true)
    (hpass : truthyS (jsOrS d.password (d.credentials.bind LegacyCreds.password)) = true)
    (h0 : s0.legacyFile = .absent) :
    (migrateFromLegacy kc s P).1 = true ∧
    ((migrateFromLegacy kc s P).2).legacyFile = .contains (cleanConfig d) ∧
    (cleanConfig d).email = none ∧ (cleanConfig d).password = none ∧
    (cleanConfig d).credentials = none ∧
    hasCredentials (migrateFromLegacy kc s P).2 = true ∧
    migrateFromLegacy kc2 (migrateFromLegacy kc s P).2 P =
      (false, (migrateFromLegacy kc s P).2) ∧
    migrateFromLegacy kc3 s0 P = (false, s0) := by
  have hsc : saveCredentials kc
      ⟨(jsOrS d.email (d.credentials.bind LegacyCreds.email)).getD "",
       (jsOrS d.password (d.credentials.bind LegacyCreds.password)).getD ""⟩ s P
      = (.ok (), { (randomBytes IV_LENGTH (randomBytes SALT_LENGTH s).2).2 with
          credFile := .contains
            { encrypted := (P.gcmEnc (deriveKey P mk (randomBytes SALT_LENGTH s).1)
                (randomBytes IV_LENGTH (randomBytes SALT_LENGTH s).2).1
                (P.serCreds ⟨(jsOrS d.email (d.credentials.bind LegacyCreds.email)).getD "",
                  (jsOrS d.password (d.credentials.bind LegacyCreds.password)).getD ""⟩)).1,
              iv := P.b64 (randomBytes IV_LENGTH (randomBytes SALT_LENGTH s).2).1,
              authTag := P.b64 (P.gcmEnc (deriveKey P mk (randomBytes SALT_LENGTH s).1)
                (randomBytes IV_LENGTH (randomBytes SALT_LENGTH s).2).1
                (P.serCreds ⟨(jsOrS d.email (d.credentials.bind LegacyCreds.email)).getD "",
                  (jsOrS d.password (d.credentials.bind LegacyCreds.password)).getD ""⟩)).2,
              salt := P.b64 (randomBytes SALT_LENGTH s).1 } }) := by
    unfold saveCredentials
    rw [encrypt_of_cached P kc _ hkey]
  have hrun : migrateFromLegacy kc s P =
      (true, { (randomBytes IV_LENGTH (randomBytes SALT_LENGTH s).2).2 with
          credFile := .contains
            { encrypted := (P.gcmEnc (deriveKey P mk (randomBytes SALT_LENGTH s).1)
                (randomBytes IV_LENGTH (randomBytes SALT_LENGTH s).2).1
                (P.serCreds ⟨(jsOrS d.email (d.credentials.bind LegacyCreds.email)).getD "",
                  (jsOrS d.password (d.credentials.bind LegacyCreds.password)).getD ""⟩)).1,
              iv := P.b64 (randomBytes IV_LENGTH (randomBytes SALT_LENGTH s).2).1,
              authTag := P.b64 (P.gcmEnc (deriveKey P mk (randomBytes SALT_LENGTH s).1)
                (randomBytes IV_LENGTH (randomBytes SALT_LENGTH s).2).1
                (P.serCreds ⟨(jsOrS d.email (d.credentials.bind LegacyCreds.email)).getD "",
                  (jsOrS d.password (d.credentials.bind LegacyCreds.password)).getD ""⟩)).2,
              salt := P.b64 (randomBytes SALT_LENGTH s).1 },
          legacyFile := .contains (cleanConfig d) }) := by
    unfold migrateFromLegacy
    rw [hleg]
    simp only [hemail, hpass, Bool.and_self, if_true]
    rw [hsc]
  have hclean_email : (cleanConfig d).email = none := rfl
  have hclean_pass : (cleanConfig d).password = none := rfl
  have hclean_creds : (cleanConfig d).credentials = none := rfl
  have hsecond : migrateFromLegacy kc2 (migrateFromLegacy kc s P).2 P =
      (false, (migrateFromLegacy kc s P).2) := by
    rw [hrun]
    unfold migrateFromLegacy
    simp [cleanConfig, jsOrS, truthyS]
  refine ⟨?_, ?_, hclean_email, hclean_pass, hclean_creds, ?_, hsecond, ?_⟩
  · rw [hrun]
  · rw [hrun]
  · rw [hrun]; rfl
  · unfold migrateFromLegacy
    rw [h0]

/-- Closed check of `migrateFromLegacy_contract` on a concrete legacy
file with top-level credentials. -/
theorem migrateFromLegacy_contract_witness :
    (migrateFromLegacy noFaults c8s toyPrims).1 = true ∧
    ((migrateFromLegacy noFaults c8s toyPrims).2).legacyFile =
      .contains (cleanConfig c8d) ∧
    (cleanConfig c8d).email = none ∧ (cleanConfig c8d).password = none ∧
    (cleanConfig c8d).credentials = none ∧
    hasCredentials (migrateFromLegacy noFaults c8s toyPrims).2 = true ∧
    migrateFromLegacy noFaults (migrateFromLegacy noFaults c8s toyPrims).2 toyPrims =
      (false, (migrateFromLegacy noFaults c8s toyPrims).2) ∧
    migrateFromLegacy noFaults (emptyStorage []) toyPrims =
      (false, emptyStorage []) :=
  migrateFromLegacy_contract toyPrims noFaults noFaults noFaults c8s
    (emptyStorage []) c8d [3] rfl rfl (by decide) (by decide) rfl

/-! ### Client-layer lemmas -/

theorem truthyS_of_ne {s : String} (h : s ≠ "") : truthyS (some s) = true := by
  have he : s.isEmpty = false := by
    simp [Bool.eq_false_iff, ne_eq, String.isEmpty_iff]
    exact h
  simp [truthyS, he]

theorem isTokenValid_truthy {now : Int} {c : ClientState}
    (h : isTokenValid now c = true) :
    truthyS c.jwtToken = true ∧ truthyS c.accountId = true := by
  unfold isTokenValid at h
  by_cases h1 : truthyS c.jwtToken <;> by_cases h2 : truthyS c.accountId <;>
    simp_all

/-- With no token on disk, session restoration reports failure and
changes nothing. -/
theorem tryRestoreSession_noToken {kc : KeychainFaults} {now : Int}
    {c : ClientState} {P : JsPrims}
    (h : c.storage.tokenFile = FileState.absent) :
    tryRestoreSession kc now c P = (false, c) := by
  have hget : getToken kc now c.storage P = (none, c.storage) := by
    unfold getToken
    rw [h]
    rfl
  unfold tryRestoreSession
  by_cases hcm : c.hasConfigManager
  · rw [if_neg (by simp [hcm] : ¬((!c.hasConfigManager) = true)), hget]
  · rw [if_pos (by simp [hcm] : (!c.hasConfigManager) = true)]

theorem saveSession_jwtToken (kc : KeychainFaults) (c : ClientState)
    (P : JsPrims) : (saveSession kc c P).jwtToken = c.jwtToken := by
  unfold saveSession
  split <;> rfl

theorem saveSession_accountId (kc : KeychainFaults) (c : ClientState)
    (P : JsPrims) : (saveSession kc c P).accountId = c.accountId := by
  unfold saveSession
  split <;> rfl

theorem saveSession_isTokenValid (kc : KeychainFaults) (c : ClientState)
    (P : JsPrims) (now : Int) :
    isTokenValid now (saveSession kc c P) = isTokenValid now c := by
  unfold saveSession
  split <;> rfl

/-- **C4** A stored token whose region differs from the active
configuration is never adopted: restoration clears the vault entry
outright and reports no session, and `ensureAuthenticated` then performs
a fresh login whose token (not the stored one) ends up in memory. -/
theorem region_mismatch_fresh_login
    (P : JsPrims) (kc : KeychainFaults) (now : Int) (c : ClientState)
    (st : StoredTokenData) (s1 : Storage) (net : Net) (fuel : Nat)
    (tok uid : String) (expSec : Int) (lrest : List LoginResp)
    (hcm : c.hasConfigManager = true)
    (hget : getToken kc now c.storage P = (some st, s1))
    (hmm : st.region ≠ c.configRegion)
    (hinvalid : isTokenValid now c = false)
    (hlog : net.logins = .success tok expSec uid :: lrest) :
    tryRestoreSession kc now c P =
      (false, { c with storage := clearToken kc s1 }) ∧
    (clearToken kc s1).tokenFile = .absent ∧
    ({ c with storage := clearToken kc s1 } : ClientState).jwtToken = c.jwtToken ∧
    ({ c with storage := clearToken kc s1 } : ClientState).accountId = c.accountId ∧
    ensureAuthenticated kc P (fuel + 1) now c net =
      (.ok (), saveSession kc
        { c with
            storage := clearToken kc s1, jwtToken := some tok,
            tokenExpires := expSec * 1000, userId := some uid,
            accountId := some (P.sha256hex uid) } P,
       { net with logins := lrest }) ∧
    ((ensureAuthenticated kc P (fuel + 1) now c net).2.1).jwtToken = some tok ∧
    ((ensureAuthenticated kc P (fuel + 1) now c net).2.1).accountId
      = some (P.sha256hex uid) := by
  have htrs : tryRestoreSession kc now c P =
      (false, { c with storage := clearToken kc s1 }) := by
    unfold tryRestoreSession
    simp [hcm, hget, bne_iff_ne, hmm]
  have hens : ensureAuthenticated kc P (fuel + 1) now c net =
      (.ok (), saveSession kc
        { c with
            storage := clearToken kc s1, jwtToken := some tok,
            tokenExpires := expSec * 1000, userId := some uid,
            accountId := some (P.sha256hex uid) } P,
       { net with logins := lrest }) := by
    unfold ensureAuthenticated
    rw [htrs]
    have hinv2 : isTokenValid now
        ({ c with storage := clearToken kc s1 } : ClientState) = false := hinvalid
    simp only [hinvalid, hinv2, Bool.false_eq_true, if_false, Bool.and_false,
      Bool.false_and, Bool.not_false, if_true]
    unfold login
    rw [hlog]
  refine ⟨htrs, clearToken_tokenFile kc s1, rfl, rfl, hens, ?_, ?_⟩
  · rw [hens]
    exact saveSession_jwtToken kc _ P
  · rw [hens]
    exact saveSession_accountId kc _ P

/-- Closed check of `region_mismatch_fresh_login`: EU token in the
vault, US configuration, fresh login adopted. -/
theorem region_mismatch_fresh_login_witness :
    tryRestoreSession noFaults 0 c4c toyPrims =
      (false, { c4c with storage := clearToken noFaults c4s }) ∧
    (clearToken noFaults c4s).tokenFile = .absent ∧
    ({ c4c with storage := clearToken noFaults c4s } : ClientState).jwtToken
      = c4c.jwtToken ∧
    ({ c4c with storage := clearToken noFaults c4s } : ClientState).accountId
      = c4c.accountId ∧
    ensureAuthenticated noFaults toyPrims 1 0 c4c c4net =
      (.ok (), saveSession noFaults
        { c4c with
            storage := clearToken noFaults c4s, jwtToken := some "newTok",
            tokenExpires := 10000 * 1000, userId := some "uid1",
            accountId := some (toyPrims.sha256hex "uid1") } toyPrims,
       { c4net with logins := [] }) ∧
    ((ensureAuthenticated noFaults toyPrims 1 0 c4c c4net).2.1).jwtToken
      = some "newTok" ∧
    ((ensureAuthenticated noFaults toyPrims 1 0 c4c c4net).2.1).accountId
      = some (toyPrims.sha256hex "uid1") :=
  region_mismatch_fresh_login toyPrims noFaults 0 c4c c4td c4s c4net 0
    "newTok" "uid1" 10000 [] rfl (by decide) (by decide) rfl rfl

/-- A client without a config manager leaves restoration a no-op. -/
theorem tryRestoreSession_noCM {kc : KeychainFaults} {now : Int}
    {c : ClientState} {P : JsPrims} (h : c.hasConfigManager = false) :
    tryRestoreSession kc now c P = (false, c) := by
  unfold tryRestoreSession
  rw [if_pos (by simp [h])]

/-- **C1 (counterexample)** On the data-response trace
`[401, 401, ok]`, `getConnections` succeeds: the second consecutive 401
does not propagate — the code clears, re-authenticates and retries
again, consuming all three data responses and both re-logins — whereas
the claim says the second 401 must surface as an error. -/
theorem getConnections_second_401_retries_again :
    (getConnections noFaults toyPrims 10 0 c1c c1net).1 = .ok [⟨"p1"⟩] ∧
    ((getConnections noFaults toyPrims 10 0 c1c c1net).2.2).datas = [] ∧
    ((getConnections noFaults toyPrims 10 0 c1c c1net).2.2).logins = [] := by
  refine ⟨?_, ?_, ?_⟩ <;> rfl

/-- **C1 (amended)** Every 401 on the data call clears the vault token
and the in-memory token, re-authenticates, and retries the call — with
no bound on consecutive 401s: for every `n`, a trace of `n` consecutive
401s followed by a success makes the call return that success after `n`
clear-and-re-login rounds, instead of propagating from the second 401
on. -/
theorem getConnections_retries_every_401
    (P : JsPrims) (kc : KeychainFaults) (now : Int)
    (tok uid : String) (expSec : Int) (d : List Connection)
    (rest : List DataResp) (lrest : List LoginResp)
    (htok : tok ≠ "") (hsha : P.sha256hex uid ≠ "")
    (hexp : now < expSec * 1000 - EXPIRY_BUFFER)
    (n fuel : Nat) (c : ClientState)
    (hcm : c.hasConfigManager = true)
    (hn : n < fuel) (hc : isTokenValid now c = true) :
    (getConnections kc P fuel now c
      { logins := List.replicate n (.success tok expSec uid) ++ lrest,
        datas := List.replicate n DataResp.err401 ++ .ok d :: rest }).1
      = .ok d := by
  induction n generalizing fuel c with
  | zero =>
    obtain ⟨h1, h2⟩ := isTokenValid_truthy hc
    cases fuel with
    | zero => omega
    | succ f =>
      have hEA : ensureAuthenticated kc P f now c
          { logins := List.replicate 0 (.success tok expSec uid) ++ lrest,
            datas := List.replicate 0 DataResp.err401 ++ .ok d :: rest } =
          (.ok (), c,
           { logins := List.replicate 0 (.success tok expSec uid) ++ lrest,
             datas := List.replicate 0 DataResp.err401 ++ .ok d :: rest }) := by
        unfold ensureAuthenticated
        rw [if_pos hc]
      unfold getConnections
      rw [hEA]
      simp [h1, h2, List.replicate]
  | succ m ih =>
    obtain ⟨h1, h2⟩ := isTokenValid_truthy hc
    cases fuel with
    | zero => omega
    | succ f =>
      cases f with
      | zero => omega
      | succ g =>
        have hEA : ensureAuthenticated kc P (g + 1) now c
            { logins := List.replicate (m + 1) (.success tok expSec uid) ++ lrest,
              datas := List.replicate (m + 1) DataResp.err401 ++ .ok d :: rest } =
            (.ok (), c,
             { logins := List.replicate (m + 1) (.success tok expSec uid) ++ lrest,
               datas := List.replicate (m + 1) DataResp.err401 ++ .ok d :: rest }) := by
          unfold ensureAuthenticated
          rw [if_pos hc]
        have htr3 : tryRestoreSession kc now
            ({ c with
                hasConfigManager := true,
                storage := clearToken kc c.storage,
                jwtToken := none } : ClientState) P =
            (false, ({ c with
                hasConfigManager := true,
                storage := clearToken kc c.storage,
                jwtToken := none } : ClientState)) :=
          tryRestoreSession_noToken (clearToken_tokenFile kc c.storage)
        have hi3 : isTokenValid now
            ({ c with
                hasConfigManager := true,
                storage := clearToken kc c.storage,
                jwtToken := none } : ClientState) = false := rfl
        have hE2 : ensureAuthenticated kc P (g + 1) now
            ({ c with
                hasConfigManager := true,
                storage := clearToken kc c.storage,
                jwtToken := none } : ClientState)
            { logins := LoginResp.success tok expSec uid ::
                (List.replicate m (.success tok expSec uid) ++ lrest),
              datas := List.replicate m DataResp.err401 ++ .ok d :: rest } =
            (.ok (), saveSession kc
              ({ c with
                  hasConfigManager := true,
                  storage := clearToken kc c.storage,
                  jwtToken := some tok,
                  tokenExpires := expSec * 1000,
                  userId := some uid,
                  accountId := some (P.sha256hex uid) } : ClientState) P,
             { logins := List.replicate m (.success tok expSec uid) ++ lrest,
               datas := List.replicate m DataResp.err401 ++ .ok d :: rest }) := by
          unfold ensureAuthenticated
          rw [htr3]
          simp only [hi3, Bool.false_and, Bool.not_false, if_true, if_false,
            Bool.false_eq_true]
          unfold login
          rfl
        have hv5 : isTokenValid now
            ({ c with
                hasConfigManager := true,
                storage := clearToken kc c.storage,
                jwtToken := some tok,
                tokenExpires := expSec * 1000,
                userId := some uid,
                accountId := some (P.sha256hex uid) } : ClientState) = true := by
          unfold isTokenValid
          simp [truthyS_of_ne htok, truthyS_of_ne hsha]
          exact hexp
        have hv6 := (saveSession_isTokenValid kc
          ({ c with
              hasConfigManager := true,
              storage := clearToken kc c.storage,
              jwtToken := some tok,
              tokenExpires := expSec * 1000,
              userId := some uid,
              accountId := some (P.sha256hex uid) } : ClientState) P now).trans hv5
        unfold getConnections
        rw [hEA]
        simp only [h1, h2, Bool.not_true, Bool.or_self, Bool.false_eq_true,
          if_false, List.replicate_succ, List.cons_append, hcm, if_true]
        rw [hE2]
        have hcm6 : (saveSession kc
            ({ c with
                hasConfigManager := true,
                storage := clearToken kc c.storage,
                jwtToken := some tok,
                tokenExpires := expSec * 1000,
                userId := some uid,
                accountId := some (P.sha256hex uid) } : ClientState) P).hasConfigManager
            = true := by
          unfold saveSession
          split <;> rfl
        exact ih (g + 1) (saveSession kc _ P) hcm6 (by omega) hv6

/-- Closed check of `getConnections_retries_every_401` at `n = 2`. -/
theorem getConnections_retries_every_401_witness :
    (getConnections noFaults toyPrims 10 0 c1c
      { logins := List.replicate 2 (.success "t1" 1000000 "u1") ++ [],
        datas := List.replicate 2 DataResp.err401 ++ .ok [⟨"p1"⟩] :: [] }).1
      = .ok [⟨"p1"⟩] :=
  getConnections_retries_every_401 toyPrims noFaults 0 "t1" "u1" 1000000
    [⟨"p1"⟩] [] [] (by decide) (by decide) (by decide) 2 10 c1c rfl
    (by decide) (by decide)

end LibreLink
